import Mathlib

/-!
Verification of the Live Voice Session Engine of the Voice-Travel
Recommendation App (source: src/App.tsx, src/types.ts).

The embedding models, faithfully to the TypeScript source:
  - the AppState enum and the domain records (src/types.ts);
  - the tool-call dispatch section of the onmessage handler
    (src/App.tsx lines 182-222), where loosely-typed argument objects are
    modelled as records of optional fields, exactly as a JS object lookup
    behaves;
  - the session start function (src/App.tsx lines 98-264), parameterised
    by whether the microphone can be acquired;
  - the playback scheduling section of the onmessage handler
    (src/App.tsx lines 161-179), with times as rationals standing for the
    real-valued clock of the output audio context.
-/

/-- The AppState enum of src/types.ts. -/
inductive AppState
  | WELCOME
  | DISCOVERY
  | PLANNING
  | BOOKING
deriving DecidableEq, Repr

/-- One item of the days array of a generatePlan argument object
(src/App.tsx lines 39-49): every field may be absent. -/
structure PlanDay where
  day : Option ℚ
  title : Option String
  description : Option String
deriving DecidableEq, Repr

/-- A tool-call argument object as the dispatcher sees it: a JS object in
which any field of either tool schema (src/App.tsx lines 11-57) may be
present or absent.  Field reads on a JS object yield undefined when the
field is absent, which an Option models. -/
structure ToolArgs where
  destination : Option String
  narrative : Option String
  emotionalHook : Option String
  foodCulture : Option String
  activities : Option (List String)
  mood : Option String
  priceLevel : Option String
  seniorFriendly : Option Bool
  familyFriendly : Option Bool
  youthOriented : Option Bool
  visualPrompt : Option String
  days : Option (List PlanDay)
  stayArea : Option String
  costEstimate : Option String
  comfortTips : Option String
  seniorGuidance : Option String
deriving DecidableEq, Repr

/-- An argument object with every field absent. -/
def emptyArgs : ToolArgs :=
  ⟨none, none, none, none, none, none, none, none,
   none, none, none, none, none, none, none, none⟩

/-- The suitability record of a TravelExperience (src/types.ts lines 9-13). -/
structure Suitability where
  seniorFriendly : Bool
  familyFriendly : Bool
  youthOriented : Bool
deriving DecidableEq, Repr

/-- The TravelExperience record (src/types.ts lines 2-18) as the dispatcher
actually builds it (src/App.tsx lines 186-202): since the dispatcher copies
argument fields without validation, a field absent from the arguments is
stored as undefined, so those fields are Options here. -/
structure TravelExperience where
  id : String
  destination : Option String
  narrative : Option String
  emotionalHook : Option String
  foodCulture : Option String
  activities : Option (List String)
  mood : Option String
  priceLevel : Option String
  suitability : Suitability
  visualPrompt : Option String
  imageUrl : String
deriving DecidableEq, Repr

/-- JS string coercion of a possibly-undefined string value, as performed by
string concatenation and template literals in src/App.tsx lines 201 and 212. -/
def jsStr : Option String → String
  | some s => s
  | none => "undefined"

/-- The TravelExperience construction of src/App.tsx lines 186-202.  The
argument gid stands for Date.now().toString() of line 187.  The three
suitability flags default to false via the JS disjunction with false
(lines 196-198); the image URL is derived from the destination (line 201). -/
def mkExperience (gid : String) (args : ToolArgs) : TravelExperience :=
  { id := gid
    destination := args.destination
    narrative := args.narrative
    emotionalHook := args.emotionalHook
    foodCulture := args.foodCulture
    activities := args.activities
    mood := args.mood
    priceLevel := args.priceLevel
    suitability :=
      { seniorFriendly := args.seniorFriendly.getD false
        familyFriendly := args.familyFriendly.getD false
        youthOriented := args.youthOriented.getD false }
    visualPrompt := args.visualPrompt
    imageUrl := "https://picsum.photos/seed/" ++ jsStr args.destination ++ "/1080/1920" }

/-- A ToolCallRequest: one element of message.toolCall.functionCalls
(src/App.tsx line 183). -/
structure FunctionCall where
  id : String
  name : String
  args : ToolArgs
deriving DecidableEq, Repr

/-- A ToolCallResponse as sent by sendToolResponse
(src/App.tsx lines 211-213 and 217-219). -/
structure ToolCallResponse where
  id : String
  name : String
  result : String
deriving DecidableEq, Repr

/-- The application-level state touched by startSession, the tool-call
dispatcher and cleanup: the React state hooks of src/App.tsx lines 60-66
plus the device-binding refs of lines 69-75 abstracted to booleans, plus
the list of alert notices shown to the user. -/
structure AppModel where
  appState : AppState
  experiences : List TravelExperience
  currentExpIndex : Nat
  currentPlan : Option ToolArgs
  isSessionActive : Bool
  isListening : Bool
  micBound : Bool
  audioCtxOpen : Bool
  outputCtxOpen : Bool
  scriptProcessorBound : Bool
  alerts : List String
deriving DecidableEq, Repr

/-- The initial React state (src/App.tsx lines 60-75): Welcome screen, no
experiences, no plan, no session, no device bindings, no notices. -/
def initApp : AppModel :=
  { appState := AppState.WELCOME
    experiences := []
    currentExpIndex := 0
    currentPlan := none
    isSessionActive := false
    isListening := false
    micBound := false
    audioCtxOpen := false
    outputCtxOpen := false
    scriptProcessorBound := false
    alerts := [] }

/-- Dispatch of a single ToolCallRequest: the body of the for-loop of
src/App.tsx lines 183-221.  A showExperience call appends the built
experience, points the current index at it, sets Discovery and answers with
a Displaying message (lines 184-213); a generatePlan call stores the raw
argument object as the current plan, sets Planning and answers with a
success message (lines 214-220); any other name matches no branch, so the
state is untouched and no response is sent. -/
def handleFunctionCall (gid : String) (fc : FunctionCall) (st : AppModel) :
    AppModel × List ToolCallResponse :=
  if fc.name = "showExperience" then
    let newExp := mkExperience gid fc.args
    let updated := st.experiences ++ [newExp]
    ({ st with
        experiences := updated
        currentExpIndex := updated.length - 1
        appState := AppState.DISCOVERY },
     [⟨fc.id, fc.name, "Displaying " ++ jsStr fc.args.destination ++ " to user."⟩])
  else if fc.name = "generatePlan" then
    ({ st with
        currentPlan := some fc.args
        appState := AppState.PLANNING },
     [⟨fc.id, fc.name, "Plan generated and displayed."⟩])
  else
    (st, [])

/-- Dispatch of an ordered batch of tool calls (the for-loop of src/App.tsx
line 183), each paired with the identifier generated for it; responses are
emitted in order. -/
def handleToolCalls : List (String × FunctionCall) → AppModel →
    AppModel × List ToolCallResponse
  | [], st => (st, [])
  | c :: rest, st =>
    let p := handleFunctionCall c.1 c.2 st
    let q := handleToolCalls rest p.1
    (q.1, p.2 ++ q.2)

/-- The notice shown when the microphone cannot be acquired
(src/App.tsx line 262). -/
def micFailAlert : String := "Could not access microphone. Please allow permissions."

/-- The startSession function of src/App.tsx lines 98-264, parameterised by
whether the microphone can be acquired.  A call while a session is active
returns at once (line 99).  Otherwise the session is marked active and the
state set to Discovery (lines 101-102), the two audio contexts are created
(lines 107-108), and then either the microphone is bound and the open
callback runs (lines 115-146), or acquisition throws and the catch block
(lines 258-263) marks the session inactive, stops listening and alerts --
without touching appState or closing the created contexts. -/
def startSession (micAvailable : Bool) (st : AppModel) : AppModel :=
  if st.isSessionActive then st
  else
    let st1 := { st with
      isSessionActive := true
      appState := AppState.DISCOVERY
      audioCtxOpen := true
      outputCtxOpen := true }
    if micAvailable then
      { st1 with
          micBound := true
          isListening := true
          scriptProcessorBound := true }
    else
      { st1 with
          isSessionActive := false
          isListening := false
          alerts := st1.alerts ++ [micFailAlert] }

/-- A PlaybackEntry: an audio buffer source scheduled at a start time with a
duration (src/App.tsx lines 166-172). -/
structure PlaybackEntry where
  start : ℚ
  duration : ℚ
deriving DecidableEq, Repr

/-- The playback-scheduler state: the nextStartTimeRef cursor (src/App.tsx
line 73) and the set of active sources (line 75), kept in scheduling order. -/
structure SchedulerState where
  nextStartTime : ℚ
  sources : List PlaybackEntry
deriving DecidableEq, Repr

/-- Scheduling of one inbound audio chunk (src/App.tsx lines 161-172):
the cursor is clamped to the current time of the output clock, the source
starts at the clamped cursor, the cursor advances by the buffer duration,
and the source joins the active set. -/
def enqueue (clockNow duration : ℚ) (st : SchedulerState) :
    SchedulerState × PlaybackEntry :=
  let start := max st.nextStartTime clockNow
  let e : PlaybackEntry := ⟨start, duration⟩
  ({ nextStartTime := start + duration, sources := st.sources ++ [e] }, e)

/-- The interruption handler (src/App.tsx lines 175-179): every active
source is stopped, the active set is cleared and the cursor is set to 0. -/
def interrupt (_st : SchedulerState) : SchedulerState :=
  { nextStartTime := 0, sources := [] }

/-- Scheduling of a sequence of inbound chunks, each given as the pair of
the output-clock reading at its arrival and its decoded duration; returns
the final state and the entries in scheduling order. -/
def runEnqueues : SchedulerState → List (ℚ × ℚ) →
    SchedulerState × List PlaybackEntry
  | st, [] => (st, [])
  | st, c :: rest =>
    let p := enqueue c.1 c.2 st
    let q := runEnqueues p.1 rest
    (q.1, p.2 :: q.2)

/-! ### Scheduler lemmas -/

lemma enqueue_fst_nextStartTime (clockNow dur : ℚ) (st : SchedulerState) :
    (enqueue clockNow dur st).1.nextStartTime = max st.nextStartTime clockNow + dur := rfl

lemma enqueue_snd_start (clockNow dur : ℚ) (st : SchedulerState) :
    (enqueue clockNow dur st).2.start = max st.nextStartTime clockNow := rfl

lemma enqueue_snd_duration (clockNow dur : ℚ) (st : SchedulerState) :
    (enqueue clockNow dur st).2.duration = dur := rfl

lemma runEnqueues_nil (st : SchedulerState) : runEnqueues st [] = (st, []) := rfl

lemma runEnqueues_cons (st : SchedulerState) (c : ℚ × ℚ) (rest : List (ℚ × ℚ)) :
    runEnqueues st (c :: rest) =
      ((runEnqueues (enqueue c.1 c.2 st).1 rest).1,
       (enqueue c.1 c.2 st).2 :: (runEnqueues (enqueue c.1 c.2 st).1 rest).2) := rfl

/-- Every entry produced by a run of enqueues starts no earlier than the
cursor held at the start of the run, provided (as for real audio buffers)
every duration is nonnegative. -/
lemma runEnqueues_start_lb (chunks : List (ℚ × ℚ)) :
    ∀ st : SchedulerState, (∀ c ∈ chunks, 0 ≤ c.2) →
      ∀ e ∈ (runEnqueues st chunks).2, st.nextStartTime ≤ e.start := by
  induction chunks with
  | nil =>
    intro st _ e he
    simp [runEnqueues_nil] at he
  | cons c rest ih =>
    intro st h e he
    rw [runEnqueues_cons] at he
    simp only [List.mem_cons] at he
    rcases he with he | he
    · subst he
      rw [enqueue_snd_start]
      exact le_max_left _ _
    · have hd : 0 ≤ c.2 := h c (by simp)
      have hrest : ∀ c' ∈ rest, 0 ≤ c'.2 := fun c' hc' => h c' (by simp [hc'])
      have hih := ih (enqueue c.1 c.2 st).1 hrest e he
      rw [enqueue_fst_nextStartTime] at hih
      have hmax : st.nextStartTime ≤ max st.nextStartTime c.1 := le_max_left _ _
      linarith

/-- Every entry produced by a run of enqueues inherits its duration from its
chunk, so all durations are nonnegative when all chunk durations are. -/
lemma runEnqueues_duration_nonneg (chunks : List (ℚ × ℚ)) :
    ∀ st : SchedulerState, (∀ c ∈ chunks, 0 ≤ c.2) →
      ∀ e ∈ (runEnqueues st chunks).2, 0 ≤ e.duration := by
  induction chunks with
  | nil =>
    intro st _ e he
    simp [runEnqueues_nil] at he
  | cons c rest ih =>
    intro st h e he
    rw [runEnqueues_cons] at he
    simp only [List.mem_cons] at he
    rcases he with he | he
    · subst he
      rw [enqueue_snd_duration]
      exact h c (by simp)
    · exact ih _ (fun c' hc' => h c' (by simp [hc'])) e he

/-- The produced entries are pairwise non-overlapping: each earlier entry
ends no later than any later entry starts. -/
lemma runEnqueues_pairwise_nonoverlap (chunks : List (ℚ × ℚ)) :
    ∀ st : SchedulerState, (∀ c ∈ chunks, 0 ≤ c.2) →
      List.Pairwise (fun a b => a.start + a.duration ≤ b.start)
        (runEnqueues st chunks).2 := by
  induction chunks with
  | nil =>
    intro st _
    simp [runEnqueues_nil]
  | cons c rest ih =>
    intro st h
    have hrest : ∀ c' ∈ rest, 0 ≤ c'.2 := fun c' hc' => h c' (by simp [hc'])
    rw [runEnqueues_cons]
    refine List.Pairwise.cons ?_ (ih _ hrest)
    intro e he
    have hlb := runEnqueues_start_lb rest (enqueue c.1 c.2 st).1 hrest e he
    rw [enqueue_fst_nextStartTime] at hlb
    rw [enqueue_snd_start, enqueue_snd_duration]
    exact hlb

/-- Claim C5: for every sequence of enqueue operations, each new entry
starts at the maximum of the cursor and the output clock and the cursor then
advances by the entry duration; consequently, for chunk durations that are
nonnegative, the scheduled intervals are pairwise non-overlapping and the
entries are scheduled in arrival order with no inversion of start times. -/
theorem enqueue_scheduling_invariant :
    (∀ (clockNow dur : ℚ) (st : SchedulerState),
        (enqueue clockNow dur st).2.start = max st.nextStartTime clockNow ∧
        (enqueue clockNow dur st).1.nextStartTime =
          (enqueue clockNow dur st).2.start + dur) ∧
    (∀ (st : SchedulerState) (chunks : List (ℚ × ℚ)),
        (∀ c ∈ chunks, 0 ≤ c.2) →
        List.Pairwise (fun a b => a.start + a.duration ≤ b.start)
          (runEnqueues st chunks).2 ∧
        List.Pairwise (fun a b => a.start ≤ b.start)
          (runEnqueues st chunks).2) := by
  constructor
  · intro clockNow dur st
    exact ⟨rfl, rfl⟩
  · intro st chunks h
    have hp := runEnqueues_pairwise_nonoverlap chunks st h
    refine ⟨hp, ?_⟩
    have hd := runEnqueues_duration_nonneg chunks st h
    exact hp.imp_of_mem fun ha _hb hr => by
      have := hd _ ha
      linarith

/-- A concrete scheduler start state for witnesses. -/
def sst0 : SchedulerState := ⟨0, []⟩

/-- A concrete chunk sequence for witnesses: clock readings 0, 3, 2 with
durations 1, 2, 1. -/
def chunks0 : List (ℚ × ℚ) := [(0, 1), (3, 2), (2, 1)]

/-- Witness for C5 at a concrete chunk sequence. -/
theorem enqueue_scheduling_invariant_witness :
    (∀ c ∈ chunks0, 0 ≤ c.2) ∧
    List.Pairwise (fun a b => a.start + a.duration ≤ b.start)
      (runEnqueues sst0 chunks0).2 :=
  ⟨by decide, (enqueue_scheduling_invariant.2 sst0 chunks0 (by decide)).1⟩

/-- Claim C3, as stated, is false: the interruption handler resets the
cursor to 0, not to the current reading of the output clock.  At a moment
when the clock reads 5, interrupting a scheduler whose cursor is 3 with one
active entry leaves the cursor at 0, not 5. -/
theorem interrupt_cursor_counterexample :
    (interrupt ⟨3, [⟨0, 1⟩]⟩).sources = [] ∧
    (interrupt ⟨3, [⟨0, 1⟩]⟩).nextStartTime = 0 ∧
    (interrupt ⟨3, [⟨0, 1⟩]⟩).nextStartTime ≠ 5 := by
  refine ⟨rfl, rfl, ?_⟩
  intro h
  rw [show (interrupt ⟨3, [⟨0, 1⟩]⟩).nextStartTime = 0 from rfl] at h
  norm_num at h

/-- Claim C3 amended: the interruption handler always empties the active
set and resets the cursor to 0 (not to the clock reading; the next enqueue
clamps the start time to the clock via the max in the scheduling step). -/
theorem interrupt_clears_and_zeroes (st : SchedulerState) :
    (interrupt st).sources = [] ∧ (interrupt st).nextStartTime = 0 :=
  ⟨rfl, rfl⟩

/-- Claim C10: an enqueued entry never starts in the past: its start time
is at least the output-clock reading at the moment of scheduling, in any
state and in particular in the state left by an interruption. -/
theorem enqueue_start_not_in_past :
    ∀ (clockNow dur : ℚ) (st : SchedulerState),
      clockNow ≤ (enqueue clockNow dur st).2.start ∧
      clockNow ≤ (enqueue clockNow dur (interrupt st)).2.start := by
  intro clockNow dur st
  exact ⟨le_max_right _ _, le_max_right _ _⟩

/-! ### Concrete sample inputs -/

/-- A concrete generated identifier (a Date.now().toString() value). -/
def gid1 : String := "1700000000000"

/-- A second concrete generated identifier. -/
def gid2 : String := "1700000000999"

/-- Concrete showExperience arguments for Ooty with every required field
present and all three suitability flags absent. -/
def showArgsOoty : ToolArgs :=
  { emptyArgs with
      destination := some "Ooty"
      narrative := some "Rolling hills and quiet mornings."
      emotionalHook := some "Slow down among the tea estates."
      foodCulture := some "Homemade chocolates and fresh varkey."
      activities := some ["Botanical garden walk", "Toy train ride", "Lake boating"]
      mood := some "Rustic"
      priceLevel := some "Budget" }

/-- Concrete showExperience arguments for Munnar with every required field
present and all three suitability flags absent. -/
def showArgsMunnar : ToolArgs :=
  { emptyArgs with
      destination := some "Munnar"
      narrative := some "Mist over endless tea gardens."
      emotionalHook := some "Breathe where the clouds rest."
      foodCulture := some "Cardamom tea and banana fritters."
      activities := some ["Tea museum visit", "Eravikulam trek", "Spice garden tour"]
      mood := some "Spiritual"
      priceLevel := some "Moderate" }

/-- A concrete showExperience request for Ooty. -/
def showCallOoty : FunctionCall := ⟨"call-1", "showExperience", showArgsOoty⟩

/-- A concrete showExperience request for Munnar. -/
def showCallMunnar : FunctionCall := ⟨"call-2", "showExperience", showArgsMunnar⟩

/-- A concrete request whose name is registered with neither tool. -/
def unknownCall : FunctionCall := ⟨"call-77", "bookFlight", emptyArgs⟩

/-- Concrete generatePlan arguments with stayArea present (an existing plan). -/
def planArgsOld : ToolArgs :=
  { emptyArgs with
      destination := some "Ooty"
      days := some [⟨some 1, some "Arrival", some "Check in and rest"⟩]
      stayArea := some "Ooty Lake Road"
      costEstimate := some "20000 INR"
      comfortTips := some "Carry warm clothes." }

/-- Concrete generatePlan arguments missing the required stayArea field. -/
def planArgsNoStay : ToolArgs :=
  { emptyArgs with
      destination := some "Munnar"
      days := some [⟨some 1, some "Arrival", some "Tea gardens at dusk"⟩]
      costEstimate := some "15000 INR"
      comfortTips := some "Book homestays early." }

/-- A concrete generatePlan request missing stayArea. -/
def planCallNoStay : FunctionCall := ⟨"call-9", "generatePlan", planArgsNoStay⟩

/-- An application state with an open session and a current plan, in the
Planning phase. -/
def stWithPlan : AppModel :=
  { initApp with
      appState := AppState.PLANNING
      currentPlan := some planArgsOld
      isSessionActive := true
      isListening := true
      micBound := true
      audioCtxOpen := true
      outputCtxOpen := true
      scriptProcessorBound := true }

/-- An application state with an open session and its device bindings, in
the Discovery phase. -/
def stActive : AppModel :=
  { initApp with
      appState := AppState.DISCOVERY
      isSessionActive := true
      isListening := true
      micBound := true
      audioCtxOpen := true
      outputCtxOpen := true
      scriptProcessorBound := true }

/-! ### Dispatcher and session theorems -/

/-- Claim C1 as stated is false: a ToolCallRequest whose name is not a
registered tool receives no ToolCallResponse at all--the dispatcher has no
branch for unknown names, so the call is silently dropped, not acknowledged
with an UnknownTool failure. -/
theorem unknown_tool_unacknowledged :
    (handleFunctionCall gid1 unknownCall initApp).2 = [] ∧
    (handleFunctionCall gid1 unknownCall initApp).2.length ≠ 1 := by
  refine ⟨rfl, ?_⟩
  decide

/-- Claim C1 amended: a showExperience or generatePlan request receives
exactly one response whose id and name echo the request, but a request with
any other name receives no response at all. -/
theorem dispatcher_response_behavior :
    (∀ (gid : String) (fc : FunctionCall) (st : AppModel),
        fc.name = "showExperience" ∨ fc.name = "generatePlan" →
        ∃ r : ToolCallResponse,
          (handleFunctionCall gid fc st).2 = [r] ∧
          r.id = fc.id ∧ r.name = fc.name) ∧
    (∀ (gid : String) (fc : FunctionCall) (st : AppModel),
        fc.name ≠ "showExperience" → fc.name ≠ "generatePlan" →
        (handleFunctionCall gid fc st).2 = []) := by
  constructor
  · intro gid fc st h
    rcases h with h | h
    · exact ⟨⟨fc.id, fc.name,
        "Displaying " ++ jsStr fc.args.destination ++ " to user."⟩,
        by simp [handleFunctionCall, h], rfl, rfl⟩
    · have hne : ¬ fc.name = "showExperience" := by rw [h]; decide
      exact ⟨⟨fc.id, fc.name, "Plan generated and displayed."⟩,
        by simp [handleFunctionCall, hne, h], rfl, rfl⟩
  · intro gid fc st h1 h2
    simp [handleFunctionCall, h1, h2]

/-- Witness for the amended C1 at a concrete registered request and a
concrete unknown-name request. -/
theorem dispatcher_response_behavior_witness :
    (∃ r : ToolCallResponse,
        (handleFunctionCall gid1 showCallOoty initApp).2 = [r] ∧
        r.id = showCallOoty.id ∧ r.name = showCallOoty.name) ∧
    (handleFunctionCall gid1 unknownCall initApp).2 = [] :=
  ⟨dispatcher_response_behavior.1 gid1 showCallOoty initApp (Or.inl rfl),
   dispatcher_response_behavior.2 gid1 unknownCall initApp (by decide) (by decide)⟩

/-- Claim C2 as stated is false: a generatePlan request missing stayArea is
not rejected--the dispatcher performs no validation, so the current plan is
replaced by the incomplete argument object and a success response is sent. -/
theorem generatePlan_missing_stayArea_counterexample :
    planCallNoStay.args.stayArea = none ∧
    (handleFunctionCall gid2 planCallNoStay stWithPlan).1.currentPlan =
      some planArgsNoStay ∧
    (handleFunctionCall gid2 planCallNoStay stWithPlan).1.currentPlan ≠
      stWithPlan.currentPlan ∧
    (handleFunctionCall gid2 planCallNoStay stWithPlan).2 =
      [⟨planCallNoStay.id, planCallNoStay.name, "Plan generated and displayed."⟩] := by
  refine ⟨rfl, rfl, ?_, rfl⟩
  decide

/-- Claim C2 amended: a generatePlan request missing stayArea succeeds
anyway: the current plan becomes the raw argument object, AppState becomes
Planning, and a success response is emitted. -/
theorem generatePlan_no_validation (gid : String) (fc : FunctionCall)
    (st : AppModel) (hn : fc.name = "generatePlan")
    (hs : fc.args.stayArea = none) :
    (handleFunctionCall gid fc st).1.currentPlan = some fc.args ∧
    (handleFunctionCall gid fc st).1.appState = AppState.PLANNING ∧
    (handleFunctionCall gid fc st).2 =
      [⟨fc.id, fc.name, "Plan generated and displayed."⟩] := by
  have hne : ¬ fc.name = "showExperience" := by rw [hn]; decide
  simp [handleFunctionCall, hne, hn]

/-- Witness for the amended C2 at a concrete request missing stayArea. -/
theorem generatePlan_no_validation_witness :
    (handleFunctionCall gid2 planCallNoStay stWithPlan).1.currentPlan =
      some planCallNoStay.args ∧
    (handleFunctionCall gid2 planCallNoStay stWithPlan).1.appState =
      AppState.PLANNING ∧
    (handleFunctionCall gid2 planCallNoStay stWithPlan).2 =
      [⟨planCallNoStay.id, planCallNoStay.name, "Plan generated and displayed."⟩] :=
  generatePlan_no_validation gid2 planCallNoStay stWithPlan rfl rfl

/-- Claim C4 as stated is false: when microphone acquisition fails during
session start, the catch block surfaces one notice and marks the session
inactive, but it never resets AppState, which remains Discovery (set before
the attempt) instead of returning to Welcome. -/
theorem capture_failure_counterexample :
    (startSession false initApp).isSessionActive = false ∧
    (startSession false initApp).alerts = [micFailAlert] ∧
    (startSession false initApp).appState = AppState.DISCOVERY ∧
    (startSession false initApp).appState ≠ AppState.WELCOME := by
  refine ⟨rfl, rfl, rfl, ?_⟩
  decide

/-- Claim C4 amended: a session start that fails to acquire the microphone
is fatal to the session (it ends inactive and not listening) and surfaces
exactly one human-readable notice, but AppState is left at Discovery, not
returned to Welcome. -/
theorem capture_failure_behavior (st : AppModel)
    (h : st.isSessionActive = false) :
    (startSession false st).isSessionActive = false ∧
    (startSession false st).isListening = false ∧
    (startSession false st).alerts = st.alerts ++ [micFailAlert] ∧
    (startSession false st).micBound = st.micBound ∧
    (startSession false st).appState = AppState.DISCOVERY := by
  simp [startSession, h]

/-- Witness for the amended C4 at the initial application state. -/
theorem capture_failure_behavior_witness :
    (startSession false initApp).isSessionActive = false ∧
    (startSession false initApp).isListening = false ∧
    (startSession false initApp).alerts = initApp.alerts ++ [micFailAlert] ∧
    (startSession false initApp).micBound = initApp.micBound ∧
    (startSession false initApp).appState = AppState.DISCOVERY :=
  capture_failure_behavior initApp rfl

/-- Claim C6: after a session opens and two showExperience calls for Ooty
and then Munnar are processed, the experience history holds exactly the two
built experiences in order, the current index is 1 and points at the Munnar
entry, and AppState is Discovery. -/
theorem two_experiences_scenario (g1 g2 : String) (fc1 fc2 : FunctionCall)
    (h1 : fc1.name = "showExperience") (h2 : fc2.name = "showExperience")
    (hd1 : fc1.args.destination = some "Ooty")
    (hd2 : fc2.args.destination = some "Munnar") :
    (handleToolCalls [(g1, fc1), (g2, fc2)]
        (startSession true initApp)).1.experiences =
      [mkExperience g1 fc1.args, mkExperience g2 fc2.args] ∧
    (handleToolCalls [(g1, fc1), (g2, fc2)]
        (startSession true initApp)).1.experiences.length = 2 ∧
    (handleToolCalls [(g1, fc1), (g2, fc2)]
        (startSession true initApp)).1.currentExpIndex = 1 ∧
    (mkExperience g1 fc1.args).destination = some "Ooty" ∧
    (mkExperience g2 fc2.args).destination = some "Munnar" ∧
    (handleToolCalls [(g1, fc1), (g2, fc2)]
        (startSession true initApp)).1.appState = AppState.DISCOVERY := by
  refine ⟨?_, ?_, ?_, ?_, ?_, ?_⟩ <;>
    simp [handleToolCalls, handleFunctionCall, startSession, initApp,
      mkExperience, h1, h2, hd1, hd2]

/-- Witness for C6 at the concrete Ooty and Munnar requests. -/
theorem two_experiences_scenario_witness :
    (handleToolCalls [(gid1, showCallOoty), (gid2, showCallMunnar)]
        (startSession true initApp)).1.experiences =
      [mkExperience gid1 showCallOoty.args, mkExperience gid2 showCallMunnar.args] ∧
    (handleToolCalls [(gid1, showCallOoty), (gid2, showCallMunnar)]
        (startSession true initApp)).1.experiences.length = 2 ∧
    (handleToolCalls [(gid1, showCallOoty), (gid2, showCallMunnar)]
        (startSession true initApp)).1.currentExpIndex = 1 ∧
    (mkExperience gid1 showCallOoty.args).destination = some "Ooty" ∧
    (mkExperience gid2 showCallMunnar.args).destination = some "Munnar" ∧
    (handleToolCalls [(gid1, showCallOoty), (gid2, showCallMunnar)]
        (startSession true initApp)).1.appState = AppState.DISCOVERY :=
  two_experiences_scenario gid1 gid2 showCallOoty showCallMunnar rfl rfl rfl rfl

/-- Claim C7: a showExperience request with every required field present
and all three suitability flags absent succeeds--one acknowledging response
is sent, the built experience is appended--and the built experience has all
three suitability flags false. -/
theorem suitability_defaults (gid : String) (fc : FunctionCall) (st : AppModel)
    (hn : fc.name = "showExperience")
    (hdest : fc.args.destination.isSome = true)
    (hnar : fc.args.narrative.isSome = true)
    (hhook : fc.args.emotionalHook.isSome = true)
    (hfood : fc.args.foodCulture.isSome = true)
    (hact : fc.args.activities.isSome = true)
    (hmood : fc.args.mood.isSome = true)
    (hprice : fc.args.priceLevel.isSome = true)
    (hs : fc.args.seniorFriendly = none)
    (hf : fc.args.familyFriendly = none)
    (hy : fc.args.youthOriented = none) :
    (handleFunctionCall gid fc st).2 =
      [⟨fc.id, fc.name, "Displaying " ++ jsStr fc.args.destination ++ " to user."⟩] ∧
    (handleFunctionCall gid fc st).1.experiences =
      st.experiences ++ [mkExperience gid fc.args] ∧
    (handleFunctionCall gid fc st).1.appState = AppState.DISCOVERY ∧
    (mkExperience gid fc.args).suitability = ⟨false, false, false⟩ := by
  refine ⟨?_, ?_, ?_, ?_⟩ <;> simp [handleFunctionCall, mkExperience, hn, hs, hf, hy]

/-- Witness for C7 at the concrete Ooty request, whose suitability flags
are all absent. -/
theorem suitability_defaults_witness :
    showCallOoty.args.seniorFriendly = none ∧
    showCallOoty.args.familyFriendly = none ∧
    showCallOoty.args.youthOriented = none ∧
    (mkExperience gid1 showCallOoty.args).suitability = ⟨false, false, false⟩ :=
  ⟨rfl, rfl, rfl,
   (suitability_defaults gid1 showCallOoty initApp
      rfl rfl rfl rfl rfl rfl rfl rfl rfl rfl rfl).2.2.2⟩

/-- Claim C8: a second session start while a session is active returns at
once: the whole application state, its device bindings included, is exactly
what it was. -/
theorem second_open_no_op (mic : Bool) (st : AppModel)
    (h : st.isSessionActive = true) :
    startSession mic st = st := by
  simp [startSession, h]

/-- Witness for C8 at a concrete active session with all device bindings. -/
theorem second_open_no_op_witness :
    startSession true stActive = stActive ∧ stActive.micBound = true :=
  ⟨second_open_no_op true stActive rfl, rfl⟩

/-- Claim C9: no tool call moves AppState from Planning back to Welcome:
dispatching any request--showExperience, generatePlan or unknown--in a
Planning state never yields a Welcome state. -/
theorem no_planning_to_welcome (gid : String) (fc : FunctionCall)
    (st : AppModel) (h : st.appState = AppState.PLANNING) :
    (handleFunctionCall gid fc st).1.appState ≠ AppState.WELCOME := by
  unfold handleFunctionCall
  split_ifs <;> simp [h]

/-- Witness for C9 at a concrete Planning state and an unknown-name call. -/
theorem no_planning_to_welcome_witness :
    (handleFunctionCall gid1 unknownCall stWithPlan).1.appState ≠
      AppState.WELCOME :=
  no_planning_to_welcome gid1 unknownCall stWithPlan rfl
